import Mathlib

/-!
Verification of the resilient content-extraction pipeline of the
election-official-job-descriptions repository.

Shallow embedding of the core functions of `elw_scraper/scrape_full_descriptions.py`,
`elw_scraper/backfill_full_descriptions.py` and `elw_scraper/scrape_governmentjobs.py`.
Python strings are modelled as `List Char`; the modelled code uses no fixed-width
machine integers (all counters are unbounded Python ints, modelled as `Nat`), and
the only float, `RATE_LIMIT_DELAY = 1.0`, is modelled as the rational 1.
Stateful code (the module-level browser singleton, the per-date counters, the
checkpoint file) is modelled by explicit state passing.
-/

namespace ElwScraper

/-! ## Python string helpers -/

/-- Python `str.lower()`, restricted to the ASCII case mapping, applied characterwise. -/
def pyLower (s : List Char) : List Char := s.map Char.toLower

/-- Python substring test `needle in haystack`. -/
def containsSub (haystack needle : List Char) : Bool :=
  match haystack with
  | [] => needle.isEmpty
  | _ :: rest => needle.isPrefixOf haystack || containsSub rest needle

/-! ## Content Quality Classifier (`is_generic_content`, scrape_full_descriptions.py:165-232) -/

/-- The fixed boilerplate-phrase table of `is_generic_content`. -/
def strong_generic_phrases : List (List Char) :=
  ["privacy policy".data, "cookie policy".data, "terms of service".data,
   "terms and conditions".data, "data protection".data, "gdpr".data,
   "page not found".data, "404 error".data]

/-- The fixed job-signal keyword table of `is_generic_content`. -/
def job_keywords : List (List Char) :=
  ["responsibilities".data, "qualifications".data, "salary".data, "position".data,
   "required".data, "experience".data, "education".data, "duties".data,
   "benefits".data, "apply".data, "application".data]

/-- `generic_count = sum(1 for phrase in strong_generic_phrases if phrase in preview)`. -/
def genericCount (preview : List Char) : Nat :=
  strong_generic_phrases.countP (fun p => containsSub preview p)

/-- `job_keyword_count = sum(1 for keyword in job_keywords if keyword in text_lower)`. -/
def jobKeywordCount (text_lower : List Char) : Nat :=
  job_keywords.countP (fun k => containsSub text_lower k)

/-- `is_generic_content(text)`: True when the extracted text looks like
boilerplate rather than a job posting.  For a string argument, Python's
`not text` is the emptiness test. -/
def is_generic_content (text : List Char) : Bool :=
  if text.isEmpty || text.length < 100 then true
  else
    let text_lower := pyLower text
    let preview := text_lower.take 1000
    let generic_count := genericCount preview
    if 2 ≤ generic_count then true
    else if text.length < 500 ∧ 1 ≤ generic_count then true
    else
      let job_keyword_count := jobKeywordCount text_lower
      if 3 ≤ job_keyword_count then false
      else if text.length < 1000 ∧ 0 < generic_count then true
      else false

/-! ## Slug generation (`create_slug`, scrape_full_descriptions.py:599-633) -/

/-- The regex class `\s` (ASCII range) of `re.sub(r'[\s_]+', '-', slug)`. -/
def isPySpace (c : Char) : Bool :=
  c == ' ' || c == '\t' || c == '\n' || c == '\r' || c == '\x0b' || c == '\x0c'

def isSpaceOrUnderscore (c : Char) : Bool := isPySpace c || c == '_'

/-- `re.sub(r'[\s_]+', '-', s)`: each maximal run of whitespace/underscores
becomes a single hyphen. -/
def subSpaceRuns : List Char → List Char
  | [] => []
  | [c] => if isSpaceOrUnderscore c then ['-'] else [c]
  | a :: b :: rest =>
    if isSpaceOrUnderscore a then
      if isSpaceOrUnderscore b then subSpaceRuns (b :: rest)
      else '-' :: subSpaceRuns (b :: rest)
    else a :: subSpaceRuns (b :: rest)

/-- The character class kept by `re.sub(r'[^a-z0-9-]', '', slug)`. -/
def isSlugKeep (c : Char) : Bool :=
  ('a' ≤ c && c ≤ 'z') || ('0' ≤ c && c ≤ '9') || c == '-'

/-- `re.sub(r'-+', '-', slug)`: collapse runs of hyphens to a single hyphen. -/
def collapseHyphens : List Char → List Char
  | [] => []
  | [c] => [c]
  | a :: b :: rest =>
    if a == '-' && b == '-' then collapseHyphens (b :: rest)
    else a :: collapseHyphens (b :: rest)

def lstripHyphens (l : List Char) : List Char := l.dropWhile (fun c => c == '-')

def rstripHyphens (l : List Char) : List Char :=
  (l.reverse.dropWhile (fun c => c == '-')).reverse

/-- Python `slug.strip('-')`. -/
def stripHyphens (l : List Char) : List Char := rstripHyphens (lstripHyphens l)

def untitled : List Char := "untitled".data

/-- `create_slug(text, max_length=50)` (scrape_full_descriptions.py:599-633).
For a string input, Python's `not text or text == ''` is the emptiness test and
`str(text)` is the identity, so the guard is: empty, or lowercases to `'nan'`. -/
def create_slug (text : List Char) (max_length : Nat) : List Char :=
  if text = [] ∨ pyLower text = "nan".data then untitled
  else
    let slug := pyLower text
    let slug := subSpaceRuns slug
    let slug := slug.filter isSlugKeep
    let slug := collapseHyphens slug
    let slug := stripHyphens slug
    let slug := if max_length < slug.length then rstripHyphens (slug.take max_length) else slug
    if slug = [] then untitled else slug

/-- No two adjacent hyphens. -/
def noDoubleHyphen : List Char → Bool
  | [] => true
  | [_] => true
  | a :: b :: rest => !(a == '-' && b == '-') && noDoubleHyphen (b :: rest)

/-- The list does not begin with a hyphen. -/
def noStartHyphen : List Char → Bool
  | [] => true
  | c :: _ => !(c == '-')

/-- The well-formedness invariant of slugs produced by `create_slug` with the
default maximum length 50: non-empty, only lowercase alphanumerics and hyphens,
no doubled/leading/trailing hyphen, length at most 50. -/
def goodSlug (s : List Char) : Prop :=
  s ≠ [] ∧ (∀ c ∈ s, isSlugKeep c = true) ∧ noDoubleHyphen s = true ∧
    noStartHyphen s = true ∧ noStartHyphen s.reverse = true ∧ s.length ≤ 50

/-! ## Browser Session Manager (scrape_full_descriptions.py:45-81)

The module globals `_browser`/`_playwright` are modelled as an explicit state.
`browser` is `some pid` when `_browser` is a live browser handle; `spawned`
counts how many browser processes the run has launched in total. -/

structure BrowserState where
  browser : Option Nat
  playwright_running : Bool
  spawned : Nat
deriving DecidableEq

def initialBrowserState : BrowserState := ⟨none, false, 0⟩

/-- `get_browser()`: lazily launch when `_browser is None`, otherwise return the
live handle.  `launch_ok` models whether the playwright import/start/launch
succeeds; on failure the browser stays unset and `None` is returned. -/
def get_browser (launch_ok : Bool) (s : BrowserState) : BrowserState × Option Nat :=
  match s.browser with
  | some b => (s, some b)
  | none =>
    if launch_ok then
      ({ browser := some s.spawned, playwright_running := true, spawned := s.spawned + 1 },
        some s.spawned)
    else (s, none)

/-- `close_browser()`: best-effort close of `_browser` and stop of `_playwright`;
each step swallows its own exception, and a failing `close()`/`stop()` leaves the
corresponding global set (the assignment to `None` follows the call in the `try`). -/
def close_browser (close_ok stop_ok : Bool) (s : BrowserState) : BrowserState :=
  let s1 := if s.browser.isSome then (if close_ok then { s with browser := none } else s) else s
  if s1.playwright_running then
    (if stop_ok then { s1 with playwright_running := false } else s1)
  else s1

/-! ## Specialized governmentjobs.com extractors: result assembly

`extract_governmentjobs_content` (scrape_full_descriptions.py:446-461) and
`extract_with_playwright` (scrape_governmentjobs.py:191-201) both end by
assembling `result_parts` from the accumulated `metadata_parts` list and the
optional `description_text`; the two functions differ only in the final return.
The assembly stage is embedded as a function of those two inputs. -/

def JOB_DESCRIPTION_LABEL : List Char := "\n=== JOB DESCRIPTION ===\n".data

/-- Python `'\n'.join(parts)`. -/
def joinNewline (parts : List (List Char)) : List Char := List.intercalate ['\n'] parts

/-- `result_parts`: the joined metadata (plus the description label) when
`metadata_parts` holds more than the bare section header, then the description
if truthy (non-None and non-empty). -/
def resultParts (metadata_parts : List (List Char)) (description_text : Option (List Char)) :
    List (List Char) :=
  (if metadata_parts ≠ [] ∧ 1 < metadata_parts.length then
    [joinNewline metadata_parts, JOB_DESCRIPTION_LABEL]
  else []) ++
  (match description_text with
   | some d => if d ≠ [] then [d] else []
   | none => [])

/-- The return of `extract_governmentjobs_content`:
`return final_text if final_text and len(final_text) > 200 else None`. -/
def extract_governmentjobs_content_result (mp : List (List Char))
    (dt : Option (List Char)) : Option (List Char) :=
  let final_text := joinNewline (resultParts mp dt)
  if final_text ≠ [] ∧ 200 < final_text.length then some final_text else none

/-- The return of `extract_with_playwright`:
`return '\n'.join(result_parts) if result_parts else None` — no length check. -/
def extract_with_playwright_result (mp : List (List Char))
    (dt : Option (List Char)) : Option (List Char) :=
  if resultParts mp dt ≠ [] then some (joinNewline (resultParts mp dt)) else none

/-! ## Retry Controller (`scrape_with_retry`, scrape_full_descriptions.py:561-596) -/

/-- Possible behaviours of one `scrape_full_description(url)` call as observed by
the retry loop: a non-None result, a clean None, or one of the three handled
exception classes (`requests.exceptions.Timeout`, `requests.exceptions.RequestException`,
any other `Exception`). -/
inductive FetchOutcome
  | success (text : List Char)
  | noResult
  | timeoutExc
  | requestExc (msg : List Char)
  | otherExc (msg : List Char)
deriving DecidableEq

/-- `RATE_LIMIT_DELAY = 1.0` seconds, as a rational. -/
def RATE_LIMIT_DELAY : ℚ := 1

/-- `MAX_RETRIES = 3`. -/
def MAX_RETRIES : Nat := 3

/-- One backoff sleep duration: `(2 ** attempt) * RATE_LIMIT_DELAY`. -/
def backoffDelay (attempt : Nat) : ℚ := (2 ^ attempt : ℚ) * RATE_LIMIT_DELAY

/-- Observable behaviour of one `scrape_with_retry` run: the returned
`(text, error)` pair, the number of fetch invocations, and the backoff sleeps
incurred, in order. -/
structure RetryResult where
  text : Option (List Char)
  error : Option (List Char)
  calls : Nat
  sleeps : List ℚ
deriving DecidableEq

def maxRetriesMsg : List Char := "Max retries exceeded".data

/-- The `for attempt in range(max_retries)` loop of `scrape_with_retry`, over the
remaining attempt indices.  A non-None text returns immediately; a non-retryable
exception returns `(None, str(e))` immediately; a clean None, a timeout or a
request error sleep `(2 ** attempt) * RATE_LIMIT_DELAY` unless this was the last
attempt, then continue; a completed loop returns `(None, "Max retries exceeded")`. -/
def retryLoop (fetch : Nat → FetchOutcome) (max_retries : Nat) : List Nat → RetryResult
  | [] => ⟨none, some maxRetriesMsg, 0, []⟩
  | attempt :: rest =>
    match fetch attempt with
    | .success t => ⟨some t, none, 1, []⟩
    | .otherExc msg => ⟨none, some msg, 1, []⟩
    | _ =>
      let r := retryLoop fetch max_retries rest
      ⟨r.text, r.error, r.calls + 1,
        (if attempt < max_retries - 1 then [backoffDelay attempt] else []) ++ r.sleeps⟩

/-- `scrape_with_retry(url, max_retries)`; `fetch` gives the behaviour of
`scrape_full_description(url)` on each attempt. -/
def scrape_with_retry (fetch : Nat → FetchOutcome) (max_retries : Nat) : RetryResult :=
  retryLoop fetch max_retries (List.range max_retries)

/-- The retryable outcomes: a clean None result, a timeout, or a request error. -/
def retryableOutcome (o : FetchOutcome) : Prop :=
  o = .noResult ∨ o = .timeoutExc ∨ ∃ m, o = .requestExc m

/-! ## `scrape_full_description` (scrape_full_descriptions.py:467-558) -/

/-- The environment of one `scrape_full_description(url)` call: the behaviour of
every sub-operation it performs.  Sub-operations not wrapped in their own
try/except in the source (`trafilatura.extract`) are `Except`-valued, carrying a
raised exception's message; sub-operations that swallow their own exceptions
(`can_fetch`, `scrape_with_browser`) are total.  The governmentjobs branch
(navigation plus `extract_with_playwright`) sits in an inner try whose handler
falls through, so its errors are also absorbed locally; the static `requests.get`
sits in a try with a browser fallback. -/
structure ScrapeEnv where
  can_fetch : Bool
  is_governmentjobs : Bool
  gov_extract : Except (List Char) (Option (List Char))
  needs_javascript : Bool
  static_fetch : Except (List Char) (List Char)
  browser_fetch : Option (List Char)
  browser_fetch_retry : Option (List Char)
  trafilatura_extract : List Char → Except (List Char) (Option (List Char))

/-- The body of `scrape_full_description` without its outer `try/except`:
robots gate, governmentjobs branch, fetch-strategy selection with static-to-browser
fallback, extraction, generic-content check with one browser re-extraction. -/
def scrape_full_description_body (env : ScrapeEnv) :
    Except (List Char) (Option (List Char)) := do
  if env.can_fetch = false then
    return none
  let govHit : Option (List Char) :=
    if env.is_governmentjobs then
      match env.gov_extract with
      | .ok (some t) => if t ≠ [] then some t else none
      | .ok none => none
      | .error _ => none
    else none
  match govHit with
  | some t => return (some t)
  | none =>
    let fetched : Option (List Char) × Bool :=
      if env.needs_javascript then (env.browser_fetch, true)
      else
        match env.static_fetch with
        | .ok html => (some html, false)
        | .error _ => (env.browser_fetch, true)
    match fetched.1 with
    | none => return none
    | some downloaded =>
      let text? ← env.trafilatura_extract downloaded
      match text? with
      | none => return none
      | some text =>
        if is_generic_content text then
          if fetched.2 = false then
            match env.browser_fetch_retry with
            | some downloaded2 =>
              if downloaded2 ≠ [] then
                let text2? ← env.trafilatura_extract downloaded2
                match text2? with
                | some t2 =>
                  if t2 ≠ [] ∧ is_generic_content t2 = false then return (some t2)
                  else return none
                | none => return none
              else return none
            | none => return none
          else return none
        else return (some text)

/-- The outer `try/except Exception` of `scrape_full_description`: any exception
raised by the body is logged and converted to a `None` result. -/
def scrape_full_description (env : ScrapeEnv) :
    Except (List Char) (Option (List Char)) :=
  match scrape_full_description_body env with
  | .ok v => .ok v
  | .error _ => .ok none

/-! ## Backfill loop (backfill_full_descriptions.py:44-167, scrape_full_descriptions.py:666-741) -/

/-- What happens to one record of the loop: skipped as already scraped (backfill
only, line 87-89), skipped for an invalid URL (line 94-97 / 700-701), or
scrape-attempted with the given result. -/
inductive RecOutcome
  | alreadyScraped
  | invalidUrl
  | scrapeFailed
  | scrapeSucceeded
deriving DecidableEq

/-- The two skip cases `continue` before the date counter is touched. -/
def RecOutcome.isSkip : RecOutcome → Bool
  | .alreadyScraped => true
  | .invalidUrl => true
  | _ => false

structure JobRec where
  year : Nat
  date : Nat
  outcome : RecOutcome
deriving DecidableEq

/-- `date_key = f"{row['year']}-{row['date']}"`. -/
def JobRec.dateKey (r : JobRec) : Nat × Nat := (r.year, r.date)

/-- The per-date counter logic of the processing loops
(backfill_full_descriptions.py:99-105 and scrape_full_descriptions.py:703-709):
skipped records are passed over; every other record increments its date-key
counter (initialising it to 1 on first sight) and is assigned the new value as
its job number, before the scrape happens and regardless of its result. -/
def assignSeqAux (counters : Nat × Nat → Nat) : List JobRec → List (Option Nat)
  | [] => []
  | r :: rest =>
    if r.outcome.isSkip then none :: assignSeqAux counters rest
    else
      some (counters r.dateKey + 1) ::
        assignSeqAux (fun k => if k = r.dateKey then counters r.dateKey + 1 else counters k) rest

/-- Job numbers assigned over a run, starting from empty counters. -/
def assignSeq (recs : List JobRec) : List (Option Nat) := assignSeqAux (fun _ => 0) recs

/-- How many records of `l` with date key `k` were scrape-attempted. -/
def countAttempted (k : Nat × Nat) (l : List JobRec) : Nat :=
  l.countP (fun r => !r.outcome.isSkip && decide (r.dateKey = k))

/-- How many records of `l` with date key `k` were successfully scraped. -/
def countSucceeded (k : Nat × Nat) (l : List JobRec) : Nat :=
  l.countP (fun r => decide (r.outcome = .scrapeSucceeded) && decide (r.dateKey = k))

/-- Claim C2 as stated: skipped and failed records consume no sequence number, so
a successfully-saved record would be numbered 1 + the count of previously
successfully-saved records of its week. -/
def C2ClaimStatement (recs : List JobRec) : Prop :=
  ∀ i r, recs[i]? = some r → r.outcome = .scrapeSucceeded →
    (assignSeq recs)[i]? = some (some (countSucceeded r.dateKey (recs.take i) + 1))

/-- `start_row = checkpoint['last_completed_row'] + 1`, where `load_checkpoint`
yields `last_completed_row = -1` when no checkpoint file exists. -/
def startRow (cp : Option Nat) : Nat :=
  match cp with
  | some k => k + 1
  | none => 0

/-- Observable behaviour of one `backfill_full_descriptions.main()` run:
the visited row indices, the assigned job numbers, the `rows_processed` counter,
whether the run reached its end (the final summary divides by `rows_processed`,
so a run that processed zero rows dies with a `ZeroDivisionError` before the
checkpoint-removal step), and the checkpoint file content after the run. -/
structure BackfillTrace where
  visited : List Nat
  seqs : List (Option Nat)
  rowsProcessed : Nat
  completed : Bool
  checkpointAfter : Option Nat
deriving DecidableEq

/-- `main()` of backfill_full_descriptions.py over a record store `recs` and an
initial checkpoint `cp`: iterate `for idx in range(start_row, total_rows)`;
`rows_processed` counts every visited row except the already-scraped ones; on
reaching the final summary with `rows_processed > 0`, the checkpoint file is
removed; with `rows_processed = 0` the summary raises and the checkpoint file is
left as it was (no batch save can have happened). -/
def backfill_main (cp : Option Nat) (recs : List JobRec) : BackfillTrace :=
  let start := startRow cp
  let pending := recs.drop start
  let rowsProcessed := pending.countP (fun r => !decide (r.outcome = .alreadyScraped))
  { visited := List.range' start pending.length
    seqs := assignSeq pending
    rowsProcessed := rowsProcessed
    completed := rowsProcessed ≠ 0
    checkpointAfter := if rowsProcessed ≠ 0 then none else cp }

/-! # Theorems -/

/-! ## Helper lemmas: characters -/

theorem char_le_toNat {a c : Char} (h : a ≤ c) : a.toNat ≤ c.toNat :=
  BitVec.le_def.mp (UInt32.le_def.mp (Char.le_def.mp h))

theorem slugKeep_toNat {c : Char} (h : isSlugKeep c = true) :
    (97 ≤ c.toNat ∧ c.toNat ≤ 122) ∨ (48 ≤ c.toNat ∧ c.toNat ≤ 57) ∨ c.toNat = 45 := by
  simp only [isSlugKeep, Bool.or_eq_true, Bool.and_eq_true, decide_eq_true_eq,
    beq_iff_eq] at h
  rcases h with (⟨h1, h2⟩ | ⟨h1, h2⟩) | rfl
  · exact Or.inl ⟨char_le_toNat h1, char_le_toNat h2⟩
  · exact Or.inr (Or.inl ⟨char_le_toNat h1, char_le_toNat h2⟩)
  · exact Or.inr (Or.inr rfl)

theorem toLower_fix {c : Char} (h : isSlugKeep c = true) : c.toLower = c := by
  have hr := slugKeep_toNat h
  have hcond : ¬(c.toNat ≥ 65 ∧ c.toNat ≤ 90) := by omega
  simp only [Char.toLower]
  exact if_neg hcond

theorem not_space_of_slugKeep {c : Char} (h : isSlugKeep c = true) :
    isSpaceOrUnderscore c = false := by
  have hr := slugKeep_toNat h
  simp only [isSpaceOrUnderscore, isPySpace, Bool.or_eq_false_iff, beq_eq_false_iff_ne]
  refine ⟨⟨⟨⟨⟨⟨?_, ?_⟩, ?_⟩, ?_⟩, ?_⟩, ?_⟩, ?_⟩ <;>
    (intro hc; subst hc; revert hr; decide)

/-! ## Helper lemmas: slug pipeline stages -/

theorem map_eq_self {f : Char → Char} : ∀ {l : List Char}, (∀ c ∈ l, f c = c) → l.map f = l
  | [], _ => rfl
  | a :: t, h => by
    simp only [List.map_cons, h a (List.mem_cons_self a t), List.cons.injEq, true_and]
    exact map_eq_self fun c hc => h c (List.mem_cons_of_mem a hc)

theorem pyLower_fix {l : List Char} (h : ∀ c ∈ l, isSlugKeep c = true) : pyLower l = l :=
  map_eq_self fun c hc => toLower_fix (h c hc)

theorem subSpaceRuns_fix : ∀ {l : List Char},
    (∀ c ∈ l, isSpaceOrUnderscore c = false) → subSpaceRuns l = l
  | [], _ => rfl
  | [c], h => by simp [subSpaceRuns, h c (by simp)]
  | a :: b :: rest, h => by
    have ha := h a (by simp)
    have hrec : subSpaceRuns (b :: rest) = b :: rest :=
      subSpaceRuns_fix fun c hc => h c (List.mem_cons_of_mem a hc)
    simp [subSpaceRuns, ha, hrec]

theorem mem_collapseHyphens : ∀ {l : List Char} {c : Char}, c ∈ collapseHyphens l → c ∈ l
  | [], _, h => h
  | [_], _, h => h
  | a :: b :: rest, c, h => by
    by_cases hab : (a == '-' && b == '-') = true
    · rw [collapseHyphens, if_pos hab] at h
      exact List.mem_cons_of_mem a (mem_collapseHyphens h)
    · rw [collapseHyphens, if_neg hab] at h
      rcases List.mem_cons.mp h with rfl | h'
      · exact List.mem_cons_self c _
      · exact List.mem_cons_of_mem a (mem_collapseHyphens h')

theorem collapseHyphens_cons : ∀ (b : Char) (rest : List Char),
    ∃ t, collapseHyphens (b :: rest) = b :: t
  | _, [] => ⟨[], rfl⟩
  | b, c :: r => by
    by_cases hbc : (b == '-' && c == '-') = true
    · obtain ⟨t, ht⟩ := collapseHyphens_cons c r
      have hb : b = '-' := by
        have := (Bool.and_eq_true _ _).mp hbc
        exact beq_iff_eq.mp this.1
      have hc : c = '-' := by
        have := (Bool.and_eq_true _ _).mp hbc
        exact beq_iff_eq.mp this.2
      refine ⟨t, ?_⟩
      rw [collapseHyphens, if_pos hbc, ht, hb, hc]
    · exact ⟨collapseHyphens (c :: r), by rw [collapseHyphens, if_neg hbc]⟩

theorem noDouble_collapseHyphens : ∀ (l : List Char),
    noDoubleHyphen (collapseHyphens l) = true
  | [] => rfl
  | [_] => rfl
  | a :: b :: rest => by
    by_cases hab : (a == '-' && b == '-') = true
    · rw [collapseHyphens, if_pos hab]
      exact noDouble_collapseHyphens (b :: rest)
    · rw [collapseHyphens, if_neg hab]
      obtain ⟨t, ht⟩ := collapseHyphens_cons b rest
      rw [ht]
      have hrec := noDouble_collapseHyphens (b :: rest)
      rw [ht] at hrec
      simp only [noDoubleHyphen, Bool.and_eq_true, Bool.not_eq_true']
      exact ⟨by simpa using hab, hrec⟩

theorem collapseHyphens_fix : ∀ {l : List Char},
    noDoubleHyphen l = true → collapseHyphens l = l
  | [], _ => rfl
  | [_], _ => rfl
  | a :: b :: rest, h => by
    simp only [noDoubleHyphen, Bool.and_eq_true, Bool.not_eq_true'] at h
    rw [collapseHyphens, if_neg (by simp [h.1]), collapseHyphens_fix (by
      simpa [noDoubleHyphen] using h.2)]

theorem noDouble_tail {a : Char} {t : List Char}
    (h : noDoubleHyphen (a :: t) = true) : noDoubleHyphen t = true := by
  cases t with
  | nil => rfl
  | cons b r => exact ((Bool.and_eq_true _ _).mp h).2

theorem noDouble_append_right : ∀ {xs ys : List Char},
    noDoubleHyphen (xs ++ ys) = true → noDoubleHyphen ys = true
  | [], _, h => h
  | _ :: xs, ys, h => @noDouble_append_right xs ys (noDouble_tail h)

theorem noDouble_append_left : ∀ {xs ys : List Char},
    noDoubleHyphen (xs ++ ys) = true → noDoubleHyphen xs = true
  | [], _, _ => rfl
  | [_], _, _ => rfl
  | a :: b :: rest, ys, h => by
    simp only [List.cons_append] at h
    simp only [noDoubleHyphen, Bool.and_eq_true, Bool.not_eq_true'] at h ⊢
    refine ⟨h.1, ?_⟩
    exact @noDouble_append_left (b :: rest) ys (by simpa [noDoubleHyphen] using h.2)

theorem lstripHyphens_noStart : ∀ (l : List Char), noStartHyphen (lstripHyphens l) = true
  | [] => rfl
  | a :: r => by
    rw [lstripHyphens, List.dropWhile_cons]
    by_cases ha : (a == '-') = true
    · rw [if_pos ha]
      exact lstripHyphens_noStart r
    · rw [if_neg ha]
      simpa [noStartHyphen] using ha

theorem lstripHyphens_decomp (l : List Char) :
    ∃ t, l = t ++ lstripHyphens l :=
  ⟨l.takeWhile (fun c => c == '-'),
    (List.takeWhile_append_dropWhile (p := fun c => c == '-') (l := l)).symm⟩

theorem rstripHyphens_decomp (l : List Char) :
    ∃ t, l = rstripHyphens l ++ t := by
  refine ⟨(l.reverse.takeWhile (fun c => c == '-')).reverse, ?_⟩
  rw [rstripHyphens]
  conv_lhs => rw [← l.reverse_reverse, ← List.takeWhile_append_dropWhile
    (p := fun c => c == '-') (l := l.reverse)]
  rw [List.reverse_append]

theorem rstripHyphens_noEnd (l : List Char) :
    noStartHyphen (rstripHyphens l).reverse = true := by
  rw [rstripHyphens, List.reverse_reverse]
  exact lstripHyphens_noStart l.reverse

theorem rstripHyphens_ne_nil {l : List Char} {c : Char}
    (hc : c ∈ l) (hne : (c == '-') = false) : rstripHyphens l ≠ [] := by
  intro h
  rw [rstripHyphens] at h
  have h2 : l.reverse.dropWhile (fun c => c == '-') = [] := by
    have := congrArg List.reverse h
    simpa using this
  rw [List.dropWhile_eq_nil_iff] at h2
  have := h2 c (List.mem_reverse.mpr hc)
  rw [hne] at this
  exact Bool.false_ne_true this

theorem noStart_of_decomp {l p t : List Char} (hl : l = p ++ t)
    (hs : noStartHyphen l = true) (hne : p ≠ []) : noStartHyphen p = true := by
  cases p with
  | nil => exact absurd rfl hne
  | cons a r =>
    rw [hl] at hs
    exact hs

theorem mem_stripHyphens {l : List Char} {c : Char} (h : c ∈ stripHyphens l) : c ∈ l := by
  rw [stripHyphens] at h
  obtain ⟨t, ht⟩ := rstripHyphens_decomp (lstripHyphens l)
  have h1 : c ∈ lstripHyphens l := by
    rw [ht]
    exact List.mem_append_left _ h
  obtain ⟨t2, ht2⟩ := lstripHyphens_decomp l
  rw [ht2]
  exact List.mem_append_right _ h1

theorem noDouble_stripHyphens {l : List Char} (h : noDoubleHyphen l = true) :
    noDoubleHyphen (stripHyphens l) = true := by
  rw [stripHyphens]
  obtain ⟨t, ht⟩ := lstripHyphens_decomp l
  have h1 : noDoubleHyphen (lstripHyphens l) = true := by
    rw [ht] at h
    exact noDouble_append_right h
  obtain ⟨t2, ht2⟩ := rstripHyphens_decomp (lstripHyphens l)
  rw [ht2] at h1
  exact noDouble_append_left h1

theorem noStart_stripHyphens (l : List Char) : noStartHyphen (stripHyphens l) = true := by
  rw [stripHyphens]
  by_cases hnil : rstripHyphens (lstripHyphens l) = []
  · rw [hnil]
    rfl
  · obtain ⟨t, ht⟩ := rstripHyphens_decomp (lstripHyphens l)
    exact noStart_of_decomp ht (lstripHyphens_noStart l) hnil

theorem noEnd_stripHyphens (l : List Char) :
    noStartHyphen (stripHyphens l).reverse = true := rstripHyphens_noEnd _

theorem lstripHyphens_fix {l : List Char} (h : noStartHyphen l = true) :
    lstripHyphens l = l := by
  cases l with
  | nil => rfl
  | cons a r =>
    simp only [noStartHyphen, Bool.not_eq_true'] at h
    rw [lstripHyphens, List.dropWhile_cons, if_neg (by simp [h])]

theorem rstripHyphens_fix {l : List Char} (h : noStartHyphen l.reverse = true) :
    rstripHyphens l = l := by
  have h2 : lstripHyphens l.reverse = l.reverse := lstripHyphens_fix h
  rw [lstripHyphens] at h2
  rw [rstripHyphens, h2, List.reverse_reverse]

theorem stripHyphens_fix {l : List Char} (h1 : noStartHyphen l = true)
    (h2 : noStartHyphen l.reverse = true) : stripHyphens l = l := by
  rw [stripHyphens, lstripHyphens_fix h1, rstripHyphens_fix h2]

theorem rstripHyphens_length_le (l : List Char) : (rstripHyphens l).length ≤ l.length := by
  obtain ⟨t, ht⟩ := rstripHyphens_decomp l
  conv_rhs => rw [ht]
  simp

/-! ## Helper theorems: `create_slug` invariants -/

theorem goodSlug_untitled : goodSlug untitled := by
  constructor
  · decide
  · exact ⟨by decide, by decide, by decide, by decide, by decide⟩

theorem create_slug_goodSlug (t : List Char) : goodSlug (create_slug t 50) := by
  by_cases hguard : t = [] ∨ pyLower t = "nan".data
  · rw [create_slug, if_pos hguard]
    exact goodSlug_untitled
  · simp only [create_slug, if_neg hguard]
    set s3 := (subSpaceRuns (pyLower t)).filter isSlugKeep with hs3
    set s5 := stripHyphens (collapseHyphens s3) with hs5
    have hkeep5 : ∀ c ∈ s5, isSlugKeep c = true := fun c hc =>
      List.of_mem_filter (mem_collapseHyphens (mem_stripHyphens hc))
    have hnd5 : noDoubleHyphen s5 = true :=
      noDouble_stripHyphens (noDouble_collapseHyphens s3)
    have hns5 : noStartHyphen s5 = true := noStart_stripHyphens _
    have hne5 : noStartHyphen s5.reverse = true := noEnd_stripHyphens _
    by_cases h50 : 50 < s5.length
    · rw [if_pos h50]
      have hne_nil : s5 ≠ [] := by
        intro h
        rw [h] at h50
        exact absurd h50 (by decide)
      obtain ⟨hd, tl, hcons⟩ := List.exists_cons_of_ne_nil hne_nil
      have hhd : (hd == '-') = false := by
        have := hns5
        rw [hcons] at this
        simpa [noStartHyphen] using this
      have htake_cons : s5.take 50 = hd :: tl.take 49 := by
        rw [hcons]
        rfl
      have hs6ne : rstripHyphens (s5.take 50) ≠ [] := by
        refine rstripHyphens_ne_nil (c := hd) ?_ hhd
        rw [htake_cons]
        exact List.mem_cons_self _ _
      rw [if_neg hs6ne]
      obtain ⟨t6, ht6⟩ := rstripHyphens_decomp (s5.take 50)
      refine ⟨hs6ne, ?_, ?_, ?_, ?_, ?_⟩
      · intro c hc
        have h1 : c ∈ s5.take 50 := by
          rw [ht6]
          exact List.mem_append_left _ hc
        exact hkeep5 c ((List.take_sublist _ _).mem h1)
      · have h1 : noDoubleHyphen (s5.take 50) = true := by
          have hsplit : s5 = s5.take 50 ++ s5.drop 50 := (List.take_append_drop _ _).symm
          rw [hsplit] at hnd5
          exact noDouble_append_left hnd5
        rw [ht6] at h1
        exact noDouble_append_left h1
      · refine noStart_of_decomp ht6 ?_ hs6ne
        rw [htake_cons]
        simpa [noStartHyphen] using hhd
      · exact rstripHyphens_noEnd _
      · have h1 := rstripHyphens_length_le (s5.take 50)
        have h2 : (s5.take 50).length ≤ 50 := by simp
        omega
    · rw [if_neg h50]
      by_cases hnil : s5 = []
      · rw [if_pos hnil]
        exact goodSlug_untitled
      · rw [if_neg hnil]
        exact ⟨hnil, hkeep5, hnd5, hns5, hne5, by omega⟩

theorem create_slug_fix {s : List Char} (hgood : goodSlug s) (hnan : s ≠ "nan".data) :
    create_slug s 50 = s := by
  obtain ⟨hne, hkeep, hnd, hns, hne2, hlen⟩ := hgood
  have hlow : pyLower s = s := pyLower_fix hkeep
  rw [create_slug, if_neg (by
    rintro (rfl | h)
    · exact hne rfl
    · rw [hlow] at h
      exact hnan h)]
  simp only [hlow, subSpaceRuns_fix (fun c hc => not_space_of_slugKeep (hkeep c hc)),
    List.filter_eq_self.mpr hkeep, collapseHyphens_fix hnd, stripHyphens_fix hns hne2]
  rw [if_neg (Nat.not_lt.mpr hlen), if_neg hne]

/-! ## The loop-counter invariant used by claim C2 -/

theorem assignSeqAux_get :
    ∀ (recs : List JobRec) (c : Nat × Nat → Nat) (i : Nat) (r : JobRec),
      recs[i]? = some r →
      (assignSeqAux c recs)[i]? =
        some (if r.outcome.isSkip then none
          else some (c r.dateKey + countAttempted r.dateKey (recs.take i) + 1))
  | [], _, i, r, h => by simp at h
  | hd :: tl, c, 0, r, h => by
    rw [List.getElem?_cons_zero, Option.some.injEq] at h
    subst h
    by_cases hskip : hd.outcome.isSkip = true
    · rw [assignSeqAux, if_pos hskip, List.getElem?_cons_zero, if_pos hskip]
    · rw [assignSeqAux, if_neg hskip, List.getElem?_cons_zero, if_neg hskip]
      simp [countAttempted]
  | hd :: tl, c, i + 1, r, h => by
    rw [List.getElem?_cons_succ] at h
    have hcount : countAttempted r.dateKey ((hd :: tl).take (i + 1)) =
        countAttempted r.dateKey (tl.take i) +
          (if (!hd.outcome.isSkip && decide (hd.dateKey = r.dateKey)) = true then 1 else 0) := by
      rw [List.take_succ_cons, countAttempted, List.countP_cons, countAttempted]
    by_cases hskip : hd.outcome.isSkip = true
    · rw [assignSeqAux, if_pos hskip, List.getElem?_cons_succ,
        assignSeqAux_get tl c i r h, hcount]
      simp [hskip]
    · rw [assignSeqAux, if_neg hskip, List.getElem?_cons_succ,
        assignSeqAux_get tl _ i r h, hcount]
      by_cases hr : r.outcome.isSkip = true
      · rw [if_pos hr, if_pos hr]
      · rw [if_neg hr, if_neg hr]
        simp only [Option.some.injEq]
        by_cases hk : r.dateKey = hd.dateKey
        · simp only [hk]
          simp [hskip]
          omega
        · have hk2 : (!hd.outcome.isSkip && decide (hd.dateKey = r.dateKey)) = false := by
            simp only [Bool.and_eq_false_iff, decide_eq_false_iff_not]
            exact Or.inr fun hEq => hk hEq.symm
          rw [hk2, if_neg hk]
          simp

/-! ## Claim C1 -/

/-- Claim C1, corrected: the boilerplate-phrase checks run before the job-keyword
check, so a text with 3 or more distinct job-signal keywords is classified as
not generic only under the additional guards that the text is at least 100
characters long, that fewer than 2 boilerplate phrases occur in the first 1000
lowered characters, and that none occurs there when the text is shorter than
500 characters. -/
theorem c1_keywords_override_amended (text : List Char)
    (hlen : 100 ≤ text.length)
    (hg : genericCount ((pyLower text).take 1000) < 2)
    (hg2 : text.length < 500 → genericCount ((pyLower text).take 1000) = 0)
    (hk : 3 ≤ jobKeywordCount (pyLower text)) :
    is_generic_content text = false := by
  have hne : text.isEmpty = false := by
    cases text
    · simp at hlen
    · rfl
  simp only [is_generic_content, hne, Bool.false_or, decide_eq_true_eq]
  split_ifs with h1 h2 h3
  · omega
  · omega
  · have := hg2 h3.1
    omega
  · rfl

set_option maxRecDepth 40000 in
/-- Counterexample to claim C1 as stated: this 122-character text contains all
11 job-signal keywords, yet `is_generic_content` returns `true` because two
boilerplate phrases occur in its first 1000 characters. -/
theorem c1_keywords_override_counterexample :
    3 ≤ jobKeywordCount (pyLower ("privacy policy cookie policy responsibilities qualifications salary position required experience education duties benefits").data)
    ∧ is_generic_content ("privacy policy cookie policy responsibilities qualifications salary position required experience education duties benefits").data = true := by
  decide

set_option maxRecDepth 40000 in
theorem c1_keywords_override_witness :
    is_generic_content ("responsibilities qualifications salary position required experience education duties benefits apply application").data = false :=
  c1_keywords_override_amended
    ("responsibilities qualifications salary position required experience education duties benefits apply application").data
    (by decide) (by decide) (fun _ => by decide) (by decide)

/-! ## Claim C2 -/

/-- Claim C2, corrected: the date counter is incremented before the scrape
happens, so the sequence number resets to 1 at the first scrape-attempted record
of each (year, date) pair and increments by exactly 1 per scrape-attempted
record, including records whose scrape fails; only skipped records (invalid URL,
or already scraped in the backfill loop) consume no sequence number. -/
theorem c2_sequence_numbers_amended (recs : List JobRec) (i : Nat) (r : JobRec)
    (h : recs[i]? = some r) :
    (assignSeq recs)[i]? =
      some (if r.outcome.isSkip then none
        else some (countAttempted r.dateKey (recs.take i) + 1)) := by
  rw [assignSeq, assignSeqAux_get recs (fun _ => 0) i r h]
  simp

/-- Counterexample to claim C2 as stated: in a week whose first record fails to
scrape and whose second succeeds, the successful record receives sequence
number 2, not 1, because the failed record consumed a number. -/
theorem c2_sequence_numbers_counterexample :
    ¬ C2ClaimStatement
      [⟨2024, 105, .scrapeFailed⟩, ⟨2024, 105, .scrapeSucceeded⟩] := by
  intro h
  have h1 := h 1 ⟨2024, 105, .scrapeSucceeded⟩ rfl rfl
  have h2 : (assignSeq [⟨2024, 105, .scrapeFailed⟩, ⟨2024, 105, .scrapeSucceeded⟩])[1]? =
      some (some 2) := rfl
  rw [h2] at h1
  exact absurd h1 (by decide)

theorem c2_sequence_numbers_witness :
    (assignSeq [⟨2024, 105, .scrapeFailed⟩, ⟨2024, 105, .scrapeSucceeded⟩])[1]? =
      some (some (countAttempted (2024, 105)
        ([(⟨2024, 105, .scrapeFailed⟩ : JobRec), ⟨2024, 105, .scrapeSucceeded⟩].take 1) + 1)) := by
  have := c2_sequence_numbers_amended
    [⟨2024, 105, .scrapeFailed⟩, ⟨2024, 105, .scrapeSucceeded⟩] 1
    ⟨2024, 105, .scrapeSucceeded⟩ rfl
  simpa using this

/-! ## Claim C3 -/

/-- Claim C3, corrected: `close_browser` resets the module state to
Uninitialized (`_browser = None`), so a subsequent `get_browser` call silently
launches a fresh browser process via the lazy-initialization path; the actual
machine is Uninitialized → Running on demand and Running → Uninitialized on
close, with re-launch always possible — Closed is not a terminal state. -/
theorem c3_browser_lifecycle_amended (s : BrowserState) (b : Nat) (h : s.browser = some b) :
    (close_browser true true s).browser = none
    ∧ ((get_browser true (close_browser true true s)).2).isSome = true
    ∧ ((get_browser true (close_browser true true s)).1).spawned = s.spawned + 1 := by
  obtain ⟨br, pw, sp⟩ := s
  simp only [BrowserState.mk.injEq] at h ⊢
  subst h
  cases pw <;> simp [close_browser, get_browser]

/-- Counterexample to claim C3 as stated: starting from the uninitialized state,
get → close → get returns a live browser handle and the total number of spawned
browser processes is 2, so the call after `close_browser` did spawn a new
browser process. -/
theorem c3_browser_lifecycle_counterexample :
    ((get_browser true (close_browser true true
        (get_browser true initialBrowserState).1)).2).isSome = true
    ∧ ((get_browser true (close_browser true true
        (get_browser true initialBrowserState).1)).1).spawned = 2 := by
  decide

theorem c3_browser_lifecycle_witness :
    (close_browser true true ⟨some 7, true, 1⟩).browser = none
    ∧ ((get_browser true (close_browser true true ⟨some 7, true, 1⟩)).2).isSome = true
    ∧ ((get_browser true (close_browser true true
        (⟨some 7, true, 1⟩ : BrowserState))).1).spawned = (1 : Nat) + 1 :=
  c3_browser_lifecycle_amended ⟨some 7, true, 1⟩ 7 rfl

/-! ## Claim C4 -/

/-- Claim C4, corrected and restricted to `extract_governmentjobs_content`: that
function returns `None` exactly when the combined text has length at most 200
and a non-None result exactly when it exceeds 200.  The playwright-based
extractor `extract_with_playwright`, the one actually invoked on the
governmentjobs.com path, performs no such length check (see the
counterexample). -/
theorem c4_length_threshold_amended (mp : List (List Char)) (dt : Option (List Char)) :
    extract_governmentjobs_content_result mp dt =
      (if 200 < (joinNewline (resultParts mp dt)).length then
        some (joinNewline (resultParts mp dt)) else none)
    ∧ (extract_governmentjobs_content_result mp dt = none ↔
        (joinNewline (resultParts mp dt)).length ≤ 200) := by
  have key : extract_governmentjobs_content_result mp dt =
      (if 200 < (joinNewline (resultParts mp dt)).length then
        some (joinNewline (resultParts mp dt)) else none) := by
    simp only [extract_governmentjobs_content_result]
    by_cases h : 200 < (joinNewline (resultParts mp dt)).length
    · have hne : joinNewline (resultParts mp dt) ≠ [] := by
        intro hnil
        rw [hnil] at h
        exact absurd h (by decide)
      rw [if_pos ⟨hne, h⟩, if_pos h]
    · rw [if_neg fun hc => h hc.2, if_neg h]
  refine ⟨key, ?_⟩
  rw [key]
  by_cases h : 200 < (joinNewline (resultParts mp dt)).length
  · rw [if_pos h]
    constructor
    · intro hc
      exact absurd hc (by simp)
    · intro hc
      omega
  · rw [if_neg h]
    exact ⟨fun _ => by omega, fun _ => rfl⟩

set_option maxRecDepth 40000 in
/-- Counterexample to claim C4 as stated: on a page whose structured data yields
only a title (a producible `metadata_parts` of header plus one field, no
description), `extract_with_playwright` returns a non-None combined text of
length well under 200, so the specialized extractor used on the
governmentjobs.com path does not reject combined texts of length at most 200. -/
theorem c4_length_threshold_counterexample :
    (extract_with_playwright_result
      ["=== JOB DETAILS ===\n".data, "Title: Elections Specialist".data] none).isSome = true
    ∧ ((extract_with_playwright_result
      ["=== JOB DETAILS ===\n".data, "Title: Elections Specialist".data] none).getD
        []).length ≤ 200 := by
  decide

/-! ## Claim C5 -/

/-- Claim C5: with a checkpoint at index k and a store of length n > k, the
resumed run visits exactly the indices k+1..n-1 and none of 0..k; with no
checkpoint it starts at index 0; and a run that reaches full successful
completion leaves no checkpoint file behind. -/
theorem c5_checkpoint_resume (k n : Nat) (recs : List JobRec)
    (hlen : recs.length = n) (hkn : k < n) :
    (backfill_main (some k) recs).visited = List.range' (k + 1) (n - (k + 1))
    ∧ (∀ i, i ∈ (backfill_main (some k) recs).visited ↔ k + 1 ≤ i ∧ i < n)
    ∧ (∀ i, i ≤ k → i ∉ (backfill_main (some k) recs).visited)
    ∧ (∀ recs2 : List JobRec,
        (backfill_main none recs2).visited = List.range' 0 recs2.length)
    ∧ (∀ (cp : Option Nat) (recs2 : List JobRec),
        (backfill_main cp recs2).completed = true →
        (backfill_main cp recs2).checkpointAfter = none) := by
  refine ⟨?_, ?_, ?_, ?_, ?_⟩
  · simp [backfill_main, startRow, hlen]
  · intro i
    simp only [backfill_main, startRow]
    rw [List.mem_range'_1]
    simp [hlen]
    omega
  · intro i hik
    simp only [backfill_main, startRow]
    rw [List.mem_range'_1]
    omega
  · intro recs2
    simp [backfill_main, startRow]
  · intro cp recs2 hc
    simp only [backfill_main] at hc
    replace hc := of_decide_eq_true hc
    simp only [backfill_main]
    rw [if_pos hc]

theorem c5_checkpoint_resume_witness :
    (backfill_main (some 0)
      [⟨2024, 105, .scrapeSucceeded⟩, ⟨2024, 112, .scrapeSucceeded⟩]).visited =
      List.range' 1 1 :=
  (c5_checkpoint_resume 0 2
    [⟨2024, 105, .scrapeSucceeded⟩, ⟨2024, 112, .scrapeSucceeded⟩] rfl (by decide)).1

/-! ## Claim C6 -/

/-- Claim C6: when the first fetch raises a non-retryable exception,
`scrape_with_retry` invokes the fetch exactly once, sleeps zero times, and
returns `(None, str(e))` with the exception's own message, not the generic
"Max retries exceeded" error. -/
theorem c6_nonretryable_single_call (fetch : Nat → FetchOutcome) (m : Nat)
    (msg : List Char) (hm : 0 < m) (hf : fetch 0 = .otherExc msg) :
    scrape_with_retry fetch m = ⟨none, some msg, 1, []⟩ := by
  cases m with
  | zero => omega
  | succ n =>
    rw [scrape_with_retry, List.range_succ_eq_map, retryLoop, hf]

theorem c6_nonretryable_single_call_witness :
    scrape_with_retry (fun _ => .otherExc "name resolution failed".data) MAX_RETRIES =
      ⟨none, some "name resolution failed".data, 1, []⟩ :=
  c6_nonretryable_single_call (fun _ => .otherExc "name resolution failed".data)
    MAX_RETRIES "name resolution failed".data (by decide) rfl

/-! ## Claim C7 -/

/-- Claim C7: with timeouts on the first two attempts and success on the third,
`scrape_with_retry` returns the third attempt's text after exactly two backoff
sleeps of durations `base_delay * 2^0` then `base_delay * 2^1` (strictly
increasing), with no sleep after the final attempt; and when every attempt
yields a retryable outcome the result is the generic "Max retries exceeded"
error after the same two sleeps. -/
theorem c7_backoff_schedule (fetch : Nat → FetchOutcome) (t : List Char)
    (h0 : fetch 0 = .timeoutExc) (h1 : fetch 1 = .timeoutExc)
    (h2 : fetch 2 = .success t) :
    scrape_with_retry fetch MAX_RETRIES =
      ⟨some t, none, 3, [backoffDelay 0, backoffDelay 1]⟩
    ∧ backoffDelay 0 < backoffDelay 1
    ∧ (∀ g : Nat → FetchOutcome,
        retryableOutcome (g 0) → retryableOutcome (g 1) → retryableOutcome (g 2) →
        scrape_with_retry g MAX_RETRIES =
          ⟨none, some maxRetriesMsg, 3, [backoffDelay 0, backoffDelay 1]⟩) := by
  have hr3 : List.range 3 = [0, 1, 2] := rfl
  refine ⟨?_, ?_, ?_⟩
  · simp [scrape_with_retry, MAX_RETRIES, hr3, retryLoop, h0, h1, h2]
  · norm_num [backoffDelay, RATE_LIMIT_DELAY]
  · rintro g (hg0 | hg0 | ⟨m0, hg0⟩) (hg1 | hg1 | ⟨m1, hg1⟩) (hg2 | hg2 | ⟨m2, hg2⟩) <;>
      simp [scrape_with_retry, MAX_RETRIES, hr3, retryLoop, hg0, hg1, hg2]

theorem c7_backoff_schedule_witness :
    scrape_with_retry
      (fun i => if i = 2 then .success "full job description".data else .timeoutExc)
      MAX_RETRIES =
      ⟨some "full job description".data, none, 3, [backoffDelay 0, backoffDelay 1]⟩ :=
  (c7_backoff_schedule
    (fun i => if i = 2 then .success "full job description".data else .timeoutExc)
    "full job description".data rfl rfl rfl).1

/-! ## Claim C8 -/

/-- Claim C8, corrected: `create_slug` at the default maximum length always
yields a non-empty string of lowercase alphanumerics and hyphens of length at
most 50, returns the fixed placeholder on empty input, and is idempotent for
every input whose slug is not the literal string "nan"; when the slug is exactly
"nan" (e.g. from the title "nan!"), re-slugging hits the NaN guard and yields
"untitled" instead, so idempotency fails there (see the counterexample). -/
theorem c8_slug_idempotent_amended (t : List Char) :
    (create_slug t 50 ≠ "nan".data →
      create_slug (create_slug t 50) 50 = create_slug t 50)
    ∧ create_slug t 50 ≠ []
    ∧ (∀ c ∈ create_slug t 50, isSlugKeep c = true)
    ∧ (∀ c ∈ create_slug t 50, c.toLower = c)
    ∧ (create_slug t 50).length ≤ 50
    ∧ (t = [] → create_slug t 50 = untitled) := by
  obtain ⟨h1, h2, h3, h4, h5, h6⟩ := create_slug_goodSlug t
  refine ⟨fun hnan => create_slug_fix ⟨h1, h2, h3, h4, h5, h6⟩ hnan, h1, h2,
    fun c hc => toLower_fix (h2 c hc), h6, fun ht => ?_⟩
  rw [create_slug, if_pos (Or.inl ht)]

set_option maxRecDepth 40000 in
/-- Counterexample to claim C8 as stated: `create_slug("nan!") = "nan"`, but
`create_slug("nan") = "untitled"` by the NaN guard, so `create_slug` is not
idempotent on the input "nan!". -/
theorem c8_slug_idempotent_counterexample :
    create_slug ("nan!").data 50 = ("nan").data ∧
    create_slug (create_slug ("nan!").data 50) 50 ≠ create_slug ("nan!").data 50 := by
  decide

set_option maxRecDepth 40000 in
theorem c8_slug_idempotent_witness :
    create_slug ("Election Director").data 50 ≠ ("nan").data ∧
    create_slug (create_slug ("Election Director").data 50) 50 =
      create_slug ("Election Director").data 50 :=
  ⟨by decide, (c8_slug_idempotent_amended ("Election Director").data).1 (by decide)⟩

/-! ## Claim C9 -/

theorem retryLoop_shape (fetch : Nat → FetchOutcome) (m : Nat) :
    ∀ l : List Nat,
      ((retryLoop fetch m l).text ≠ none ∧ (retryLoop fetch m l).error = none)
      ∨ ((retryLoop fetch m l).text = none ∧ (retryLoop fetch m l).error ≠ none)
  | [] => Or.inr ⟨rfl, by simp [retryLoop]⟩
  | a :: rest => by
    cases hf : fetch a <;> simp [retryLoop, hf] <;>
      simpa using retryLoop_shape fetch m rest

/-- Claim C9: `scrape_full_description` never lets an exception escape — its
result is always `ok`, and whenever the body raises, the outer handler turns the
exception into a `None` result; consequently `scrape_with_retry` always returns
a pair in which exactly one of text and error is set. -/
theorem c9_no_exception_escapes :
    (∀ env : ScrapeEnv, ∃ v, scrape_full_description env = .ok v)
    ∧ (∀ (env : ScrapeEnv) (e : List Char),
        scrape_full_description_body env = .error e →
        scrape_full_description env = .ok none)
    ∧ (∀ (f : Nat → FetchOutcome) (m : Nat),
        ((scrape_with_retry f m).text ≠ none ∧ (scrape_with_retry f m).error = none)
        ∨ ((scrape_with_retry f m).text = none ∧ (scrape_with_retry f m).error ≠ none)) := by
  refine ⟨?_, ?_, ?_⟩
  · intro env
    rw [scrape_full_description]
    cases scrape_full_description_body env with
    | ok v => exact ⟨v, rfl⟩
    | error e => exact ⟨none, rfl⟩
  · intro env e h
    rw [scrape_full_description, h]
  · intro f m
    exact retryLoop_shape f m (List.range m)

theorem c9_no_exception_escapes_witness :
    scrape_full_description
      ⟨true, false, .ok none, false, .ok ("<html></html>").data, none, none,
        fun _ => .error ("lxml tree build failed").data⟩ = .ok none :=
  c9_no_exception_escapes.2.1
    ⟨true, false, .ok none, false, .ok ("<html></html>").data, none, none,
      fun _ => .error ("lxml tree build failed").data⟩ ("lxml tree build failed").data rfl

/-! ## Claim C10 -/

/-- Claim C10: `create_slug` returns the placeholder not only for the empty
title but for every title whose lowercasing equals the literal string "nan", so
a job title that is genuinely the word "NaN" in any letter case is filed under
"untitled". -/
theorem c10_nan_guard :
    create_slug [] 50 = untitled ∧
    ∀ t : List Char, pyLower t = ("nan").data → create_slug t 50 = untitled := by
  constructor
  · rw [create_slug, if_pos (Or.inl rfl)]
  · intro t h
    rw [create_slug, if_pos (Or.inr h)]

theorem c10_nan_guard_witness : create_slug ("NaN").data 50 = untitled :=
  c10_nan_guard.2 ("NaN").data (by decide)

end ElwScraper
